import Mathlib

/-!
Shallow embedding of the slack-bridge repository (api/events.py): a Vercel
serverless handler that verifies a Slack request signature, parses the event
payload, resolves channel and user names through the Slack Web API, and
forwards qualifying messages to one of two Google Chat webhooks.

Modelling conventions:
- JSON values (the result of json.loads and of the Slack API responses) are
  the inductive `Json`.  Python dict.get with its absent-key defaults is
  `pyGet` / `pyGetD`; Python truthiness on JSON-decoded values is `truthy`.
- External plumbing is abstracted: HMAC-SHA256 as a lowercase-hex keyed
  digest is an explicit function parameter `hmacHex`; json.loads is a
  parameter `parse` returning `none` when parsing raises; the two Slack Web
  API calls are oracles `chanApi` and `userApi` mapping the queried id to
  the decoded response body (`none` models a transport or decode exception).
- Python exceptions that escape to the handler (AttributeError from .get on
  a non-dict, .strip() on a non-string, TypeError from slicing a non-string
  user id) are `Except.error ()`; the handler catches them as a 500.
  hmac.compare_digest is modelled as string equality (its constant-time
  behaviour is not observable in this embedding).
- Response bodies are the exact json.dumps outputs of the source, as string
  literals.
-/

inductive Json where
| null : Json
| bool (b : Bool) : Json
| num (n : Int) : Json
| str (s : String) : Json
| arr (elems : List Json) : Json
| obj (fields : List (String × Json)) : Json

/-- Association-list lookup in a JSON object, first match wins. -/
def jLookup : List (String × Json) → String → Option Json
| [], _ => none
| (k, v) :: fs, key => if k = key then some v else jLookup fs key

/-- Python dict.get(key): absent keys give None, which json maps to null. -/
def pyGet (fields : List (String × Json)) (key : String) : Json :=
  (jLookup fields key).getD Json.null

/-- Python dict.get(key, default): the default only covers an absent key. -/
def pyGetD (fields : List (String × Json)) (key : String) (d : Json) : Json :=
  (jLookup fields key).getD d

/-- Python truthiness of a json.loads value. -/
def truthy : Json → Bool
| Json.null => false
| Json.bool b => b
| Json.num n => n ≠ 0
| Json.str s => s ≠ ""
| Json.arr xs => ¬ xs.isEmpty
| Json.obj fs => ¬ fs.isEmpty

/-- The whitespace characters str.strip() removes (ASCII part). -/
def pyIsSpace (c : Char) : Bool :=
  c = ' ' ∨ c = '\t' ∨ c = '\n' ∨ c = '\r' ∨ c = '\x0b' ∨ c = '\x0c'

/-- Python str.strip(): drop leading and trailing whitespace. -/
def pyStrip (s : String) : String :=
  String.mk (((s.data.dropWhile pyIsSpace).reverse.dropWhile pyIsSpace).reverse)

mutual

/-- Python repr() of a json.loads value, used by str() for non-strings. -/
def pyRepr : Json → String
| Json.null => "None"
| Json.bool true => "True"
| Json.bool false => "False"
| Json.num n => toString n
| Json.str s => "\x27" ++ s ++ "\x27"
| Json.arr xs => "[" ++ pyReprList xs ++ "]"
| Json.obj fs => "\x7b" ++ pyReprFields fs ++ "\x7d"

/-- Comma-separated repr of list elements. -/
def pyReprList : List Json → String
| [] => ""
| [j] => pyRepr j
| j :: js => pyRepr j ++ ", " ++ pyReprList js

/-- Comma-separated repr of dict entries. -/
def pyReprFields : List (String × Json) → String
| [] => ""
| [(k, v)] => "\x27" ++ k ++ "\x27: " ++ pyRepr v
| (k, v) :: fs => "\x27" ++ k ++ "\x27: " ++ pyRepr v ++ ", " ++ pyReprFields fs

end

/-- Python str() as used by f-string interpolation. -/
def pyStr : Json → String
| Json.str s => s
| j => pyRepr j

/-- Python value[-4:]: defined on strings and lists, TypeError otherwise. -/
def pyLast4 : Json → Except Unit Json
| Json.str s => Except.ok (Json.str (s.takeRight 4))
| Json.arr xs => Except.ok (Json.arr (xs.drop (xs.length - 4)))
| _ => Except.error ()

/-- The four environment variables the handler reads. -/
structure Config where
  slack_signing_secret : Option String
  slack_bot_token : Option String
  gchat_announcements_url : Option String
  gchat_general_url : Option String

/-- The inbound HTTP request: method, raw body, and the two Slack headers
(headers.get with default empty string). -/
structure HttpRequest where
  method : String
  body : String
  timestamp : String
  signature : String

/-- The handler return value: statusCode and body (a json.dumps string, or
the raw challenge value). -/
structure Response where
  statusCode : Nat
  body : Json

/-- One outbound POST to a Google Chat webhook: destination URL and JSON
payload. -/
structure RelayCall where
  url : String
  payload : Json

def methodNotAllowedBody : Json := Json.str "\x7b\"error\": \"Method not allowed\"\x7d"

def missingEnvBody : Json := Json.str "\x7b\"error\": \"Missing required environment variables\"\x7d"

def invalidSignatureBody : Json := Json.str "\x7b\"error\": \"Invalid signature\"\x7d"

def skippedBody : Json := Json.str "\x7b\"status\": \"skipped_empty_or_bot_message\"\x7d"

def okBody : Json := Json.str "\x7b\"status\": \"ok\"\x7d"

def internalErrorBody : Json := Json.str "\x7b\"error\": \"Internal server error\"\x7d"

/-- verify_slack_signature from api/events.py.  `hmacHex` abstracts the
lowercase hex HMAC-SHA256 digest keyed by its first argument.  The
`not all([...])` guard makes any empty input return False; on non-empty
inputs the supplied signature is compared (compare_digest) with
"v0=" + HMAC-SHA256(secret, "v0:" + timestamp + ":" + body). -/
def verify_slack_signature (hmacHex : String → String → String)
    (signing_secret body timestamp signature : String) : Bool :=
  if signing_secret = "" ∨ body = "" ∨ timestamp = "" ∨ signature = "" then
    false
  else
    let sig_basestring := "v0:" ++ timestamp ++ ":" ++ body
    let expected_signature := "v0=" ++ hmacHex signing_secret sig_basestring
    expected_signature = signature

/-- get_channel_name from api/events.py.  `resp` is the decoded Slack API
response for the queried id, `none` when the request or decode raised.
Every failure path (exception, falsy ok flag, non-dict data or channel)
yields the sentinel "unknown"; otherwise data.channel.name with the same
default. -/
def get_channel_name (channel_id : Json) (resp : Option Json) : Json :=
  match resp with
  | none => Json.str "unknown"
  | some data =>
    match data with
    | Json.obj dfs =>
      if truthy (pyGet dfs "ok") then
        match pyGetD dfs "channel" (Json.obj []) with
        | Json.obj cfs => pyGetD cfs "name" (Json.str "unknown")
        | _ => Json.str "unknown"
      else Json.str "unknown"
    | _ => Json.str "unknown"

/-- The body of the try block of get_user_display_name: the ok branch walks
profile.display_name, real_name, name with Python `or` (falsy falls
through), ending at "User-" + user_id[-4:]; a .get on a non-dict raises. -/
def userTryBody (user_id : Json) (data : Json) : Except Unit Json :=
  match data with
  | Json.obj dfs =>
    if truthy (pyGet dfs "ok") then
      match pyGetD dfs "user" (Json.obj []) with
      | Json.obj ufs =>
        match pyGetD ufs "profile" (Json.obj []) with
        | Json.obj pfs =>
          if truthy (pyGet pfs "display_name") then Except.ok (pyGet pfs "display_name")
          else if truthy (pyGet ufs "real_name") then Except.ok (pyGet ufs "real_name")
          else if truthy (pyGet ufs "name") then Except.ok (pyGet ufs "name")
          else (pyLast4 user_id).map (fun l => Json.str ("User-" ++ pyStr l))
        | _ => Except.error ()
      | _ => Except.error ()
    else (pyLast4 user_id).map (fun l => Json.str ("User-" ++ pyStr l))
  | _ => Except.error ()

/-- get_user_display_name from api/events.py.  Any exception inside the try
block falls to the except branch, which itself computes
"User-" + user_id[-4:] (and re-raises on a non-sliceable user id). -/
def get_user_display_name (user_id : Json) (resp : Option Json) : Except Unit Json :=
  match resp with
  | none => (pyLast4 user_id).map (fun l => Json.str ("User-" ++ pyStr l))
  | some data =>
    match userTryBody user_id data with
    | Except.ok v => Except.ok v
    | Except.error _ => (pyLast4 user_id).map (fun l => Json.str ("User-" ++ pyStr l))

/-- forward_to_gchat from api/events.py: the payload POSTed to the webhook.
Delivery errors are swallowed inside the function, so it is modelled as the
pure construction of the outbound call. -/
def forward_to_gchat (webhook_url : String) (user_name : Json)
    (message_text : String) (channel_name : String) : RelayCall :=
  { url := webhook_url,
    payload := Json.obj [
      ("text", Json.str (pyStr user_name ++ ": " ++ message_text)),
      ("cards", Json.arr [Json.obj [
        ("header", Json.obj [
          ("title", Json.str "Join Pinewood Robotics on Slack to join the conversation!"),
          ("subtitle", Json.str ("This is a bridged message from #" ++ channel_name ++ " on Slack. You should join the Slack workspace below for future access. This bridge is only temporary for now.")),
          ("imageUrl", Json.str "https://mp-cdn.elgato.com/media/01a11cf1-c0b5-46f0-9def-1dbb8d39d3e2/Slack-thumbnail-optimized-7a3bded9-c41e-4bdf-8ba0-5367c7dc310d.jpeg"),
          ("imageStyle", Json.str "IMAGE")]),
        ("sections", Json.arr [Json.obj [
          ("widgets", Json.arr [Json.obj [
            ("buttons", Json.arr [Json.obj [
              ("textButton", Json.obj [
                ("text", Json.str "Accept your Slack invite"),
                ("onClick", Json.obj [
                  ("openLink", Json.obj [
                    ("url", Json.str "https://join.slack.com/t/pinewoodroboticsgroup/shared_invite/zt-3coxmq6ie-02eRfEGLq0uHFRNAhMpeZA")])])])]])]])]])]])] }

/-- The `not all([...])` configuration gate: every environment value must be
present and non-empty (Python truthiness of the four strings). -/
def getConfig (cfg : Config) : Option (String × String × String × String) :=
  match cfg.slack_signing_secret, cfg.slack_bot_token,
      cfg.gchat_announcements_url, cfg.gchat_general_url with
  | some a, some b, some c, some d =>
    if a ≠ "" ∧ b ≠ "" ∧ c ≠ "" ∧ d ≠ "" then some (a, b, c, d) else none
  | _, _, _, _ => none

/-- The channel-name elif chain of the handler: forward to the general
webhook on the exact name "general", to the announcements webhook on the
exact name "announcements", otherwise only log.  All three branches fall
through to the common 200 ok response. -/
def routeDecision (channel_name user_name : Json) (message_text : String)
    (gchat_announcements_url gchat_general_url : String) :
    Response × List RelayCall :=
  match channel_name with
  | Json.str "general" =>
    ({ statusCode := 200, body := okBody },
      [forward_to_gchat gchat_general_url user_name message_text "general"])
  | Json.str "announcements" =>
    ({ statusCode := 200, body := okBody },
      [forward_to_gchat gchat_announcements_url user_name message_text "announcements"])
  | _ => ({ statusCode := 200, body := okBody }, [])

/-- The event_callback branch of the handler: the inner event must be a dict
(otherwise .get raises), of type "message" with subtype None; the text must
be a string (otherwise .strip() raises); empty-after-strip text or a falsy
user id returns the skipped body; otherwise the message is routed on the
resolved channel name. -/
def handleEventCallback (event : Json) (chanApi userApi : Json → Option Json)
    (gchat_announcements_url gchat_general_url : String) :
    Except Unit (Response × List RelayCall) :=
  match event with
  | Json.obj efields =>
    match pyGet efields "type", pyGet efields "subtype" with
    | Json.str "message", Json.null =>
      match pyGetD efields "text" (Json.str "") with
      | Json.str message_text =>
        if pyStrip message_text = "" ∨ truthy (pyGet efields "user") = false then
          Except.ok ({ statusCode := 200, body := skippedBody }, [])
        else
          match get_user_display_name (pyGet efields "user")
              (userApi (pyGet efields "user")) with
          | Except.error e => Except.error e
          | Except.ok user_name =>
            Except.ok (routeDecision
              (get_channel_name (pyGet efields "channel") (chanApi (pyGet efields "channel")))
              user_name message_text gchat_announcements_url gchat_general_url)
      | _ => Except.error ()
    | _, _ => Except.ok ({ statusCode := 200, body := okBody }, [])
  | _ => Except.error ()

/-- The part of the handler after signature verification: json.loads (raises
on malformed bodies and .get raises on non-dict results), then the
url_verification echo, the event_callback branch, or the plain 200. -/
def handleParsedBody (parsed : Option Json) (chanApi userApi : Json → Option Json)
    (gchat_announcements_url gchat_general_url : String) :
    Except Unit (Response × List RelayCall) :=
  match parsed with
  | none => Except.error ()
  | some (Json.obj fields) =>
    match pyGet fields "type" with
    | Json.str "url_verification" =>
      Except.ok ({ statusCode := 200, body := pyGetD fields "challenge" (Json.str "") }, [])
    | Json.str "event_callback" =>
      handleEventCallback (pyGetD fields "event" (Json.obj []))
        chanApi userApi gchat_announcements_url gchat_general_url
    | _ => Except.ok ({ statusCode := 200, body := okBody }, [])
  | some _ => Except.error ()

/-- handler from api/events.py: method gate, configuration gate, signature
check, then the try block whose exceptions become a 500.  The second
component collects the outbound relay calls the invocation performs. -/
def handler (hmacHex : String → String → String) (parse : String → Option Json)
    (chanApi userApi : Json → Option Json) (cfg : Config) (req : HttpRequest) :
    Response × List RelayCall :=
  if req.method ≠ "POST" then
    ({ statusCode := 405, body := methodNotAllowedBody }, [])
  else
    match getConfig cfg with
    | none => ({ statusCode := 500, body := missingEnvBody }, [])
    | some (slack_signing_secret, _, gchat_announcements_url, gchat_general_url) =>
      if verify_slack_signature hmacHex slack_signing_secret req.body req.timestamp req.signature then
        match handleParsedBody (parse req.body) chanApi userApi
            gchat_announcements_url gchat_general_url with
        | Except.ok r => r
        | Except.error _ => ({ statusCode := 500, body := internalErrorBody }, [])
      else
        ({ statusCode := 401, body := invalidSignatureBody }, [])

theorem strAppendCancelLeft (a x y : String) (h : a ++ x = a ++ y) : x = y := by
  apply String.ext
  have hd : a.data ++ x.data = a.data ++ y.data := by
    rw [← String.data_append, ← String.data_append, h]
  exact List.append_cancel_left hd

theorem strAppendCancelRight (x y b : String) (h : x ++ b = y ++ b) : x = y := by
  apply String.ext
  have hd : x.data ++ b.data = y.data ++ b.data := by
    rw [← String.data_append, ← String.data_append, h]
  exact List.append_cancel_right hd

/-- A concrete injective keyed-digest stand-in used to instantiate the
abstract HMAC in witnesses: a unary length header, a separator, then key
and message. -/
def pairEncode (k m : String) : String :=
  String.mk (List.replicate k.length 'a') ++ ":" ++ k ++ m

theorem replicateSepInj : ∀ (n n' : Nat) (u v : List Char),
    List.replicate n 'a' ++ ':' :: u = List.replicate n' 'a' ++ ':' :: v →
    n = n' ∧ u = v := by
  intro n
  induction n with
  | zero =>
    intro n' u v h
    cases n' with
    | zero => simpa using h
    | succ n' =>
      exfalso
      simp only [List.replicate, List.nil_append, List.cons_append, List.cons.injEq] at h
      exact absurd h.1 (by decide)
  | succ n ih =>
    intro n' u v h
    cases n' with
    | zero =>
      exfalso
      simp only [List.replicate, List.nil_append, List.cons_append, List.cons.injEq] at h
      exact absurd h.1 (by decide)
    | succ n' =>
      simp only [List.replicate, List.cons_append, List.cons.injEq] at h
      obtain ⟨h3, h4⟩ := ih n' u v h.2
      exact ⟨by omega, h4⟩

theorem pairEncode_inj (k m k' m' : String) (h : pairEncode k m = pairEncode k' m') :
    k = k' ∧ m = m' := by
  have hc : (":" : String).data = [':'] := rfl
  have hd : List.replicate k.length 'a' ++ ':' :: (k.data ++ m.data)
      = List.replicate k'.length 'a' ++ ':' :: (k'.data ++ m'.data) := by
    have hh := congrArg String.data h
    simp only [pairEncode, String.data_append, hc] at hh
    simpa [List.append_assoc] using hh
  obtain ⟨hn, hu⟩ := replicateSepInj k.length k'.length _ _ hd
  have hlen : k.data.length = k'.data.length := hn
  obtain ⟨hk, hm⟩ := List.append_inj hu hlen
  exact ⟨String.ext hk, String.ext hm⟩

theorem verify_slack_signature_iff (hmacHex : String → String → String)
    (S B T G : String) :
    verify_slack_signature hmacHex S B T G = true ↔
      S ≠ "" ∧ B ≠ "" ∧ T ≠ "" ∧ G ≠ "" ∧
        G = "v0=" ++ hmacHex S ("v0:" ++ T ++ ":" ++ B) := by
  unfold verify_slack_signature
  split
  · rename_i h
    simp only [Bool.false_eq_true, false_iff]
    rintro ⟨h1, h2, h3, h4, -⟩
    rcases h with h | h | h | h <;> tauto
  · rename_i h
    push_neg at h
    obtain ⟨h1, h2, h3, h4⟩ := h
    simp only [decide_eq_true_eq]
    constructor
    · intro he
      exact ⟨h1, h2, h3, h4, he.symm⟩
    · rintro ⟨-, -, -, -, he⟩
      exact he.symm

/-- C1: verify_slack_signature accepts exactly when all four inputs are
non-empty and the supplied signature equals "v0=" plus the keyed digest of
"v0:" + timestamp + ":" + body; any empty input is rejected, and any
change to the signature, secret, timestamp, or body is rejected.  The
digest function is abstract; collision-freedom of HMAC-SHA256 is taken as
the hypothesis `hinj` for the rejection of changed secret, timestamp, or
body. -/
theorem verify_slack_signature_correct
    (hmacHex : String → String → String)
    (hinj : ∀ k m k' m', hmacHex k m = hmacHex k' m' → k = k' ∧ m = m')
    (S B T G : String) :
    (verify_slack_signature hmacHex S B T G = true ↔
      S ≠ "" ∧ B ≠ "" ∧ T ≠ "" ∧ G ≠ "" ∧
        G = "v0=" ++ hmacHex S ("v0:" ++ T ++ ":" ++ B)) ∧
    (∀ G', G' ≠ G → G = "v0=" ++ hmacHex S ("v0:" ++ T ++ ":" ++ B) →
      verify_slack_signature hmacHex S B T G' = false) ∧
    (∀ S', S' ≠ S →
      verify_slack_signature hmacHex S' B T
        ("v0=" ++ hmacHex S ("v0:" ++ T ++ ":" ++ B)) = false) ∧
    (∀ T', T' ≠ T →
      verify_slack_signature hmacHex S B T'
        ("v0=" ++ hmacHex S ("v0:" ++ T ++ ":" ++ B)) = false) ∧
    (∀ B', B' ≠ B →
      verify_slack_signature hmacHex S B' T
        ("v0=" ++ hmacHex S ("v0:" ++ T ++ ":" ++ B)) = false) := by
  refine ⟨verify_slack_signature_iff hmacHex S B T G, ?_, ?_, ?_, ?_⟩
  · intro G' hne hG
    rcases hb : verify_slack_signature hmacHex S B T G' with h | h
    · rfl
    · exfalso
      obtain ⟨-, -, -, -, he⟩ := (verify_slack_signature_iff hmacHex S B T G').mp hb
      exact hne (by rw [he, ← hG])
  · intro S' hne
    rcases hb : verify_slack_signature hmacHex S' B T
        ("v0=" ++ hmacHex S ("v0:" ++ T ++ ":" ++ B)) with h | h
    · rfl
    · exfalso
      obtain ⟨-, -, -, -, he⟩ := (verify_slack_signature_iff hmacHex S' B T _).mp hb
      have hdig := strAppendCancelLeft "v0=" _ _ he
      exact hne ((hinj S _ S' _ hdig).1.symm
        ▸ rfl : S' = S)
  · intro T' hne
    rcases hb : verify_slack_signature hmacHex S B T'
        ("v0=" ++ hmacHex S ("v0:" ++ T ++ ":" ++ B)) with h | h
    · rfl
    · exfalso
      obtain ⟨-, -, -, -, he⟩ := (verify_slack_signature_iff hmacHex S B T' _).mp hb
      have hdig := strAppendCancelLeft "v0=" _ _ he
      have hmsg := (hinj S _ S _ hdig).2
      have h1 := strAppendCancelRight _ _ B hmsg
      have h2 := strAppendCancelRight _ _ ":" h1
      exact hne (strAppendCancelLeft "v0:" _ _ h2).symm
  · intro B' hne
    rcases hb : verify_slack_signature hmacHex S B' T
        ("v0=" ++ hmacHex S ("v0:" ++ T ++ ":" ++ B)) with h | h
    · rfl
    · exfalso
      obtain ⟨-, -, -, -, he⟩ := (verify_slack_signature_iff hmacHex S B' T _).mp hb
      have hdig := strAppendCancelLeft "v0=" _ _ he
      have hmsg := (hinj S _ S _ hdig).2
      exact hne (strAppendCancelLeft ("v0:" ++ T ++ ":") _ _ hmsg).symm

/-- C1 witness: the correctness theorem applied to the concrete injective
digest pairEncode at concrete inputs. -/
theorem verify_slack_signature_correct_witness :
    verify_slack_signature pairEncode "secret" "body" "12345"
      ("v0=" ++ pairEncode "secret" ("v0:" ++ "12345" ++ ":" ++ "body")) = true ∧
    verify_slack_signature pairEncode "secret" "body" "12345" "v0=bad" = false := by
  have h := verify_slack_signature_correct pairEncode pairEncode_inj
    "secret" "body" "12345"
    ("v0=" ++ pairEncode "secret" ("v0:" ++ "12345" ++ ":" ++ "body"))
  refine ⟨h.1.mpr ⟨by decide, by decide, by decide, by decide, rfl⟩, ?_⟩
  exact h.2.1 "v0=bad" (by decide) rfl

theorem routeDecision_spec (cn u : Json) (m a g : String) :
    (routeDecision cn u m a g).1 = { statusCode := 200, body := okBody } ∧
    (routeDecision cn u m a g).2.length ≤ 1 ∧
    ((routeDecision cn u m a g).2 ≠ [] →
      cn = Json.str "general" ∨ cn = Json.str "announcements") := by
  unfold routeDecision
  split <;> simp_all

theorem routeDecision_other (cn u : Json) (m a g : String)
    (h1 : cn ≠ Json.str "general") (h2 : cn ≠ Json.str "announcements") :
    routeDecision cn u m a g = ({ statusCode := 200, body := okBody }, []) := by
  unfold routeDecision
  split <;> simp_all

theorem handleEventCallback_shape (event : Json) (chanApi userApi : Json → Option Json)
    (aUrl gUrl : String) (out : Response × List RelayCall)
    (h : handleEventCallback event chanApi userApi aUrl gUrl = Except.ok out) :
    (out.1 = { statusCode := 200, body := okBody } ∨
     out.1 = { statusCode := 200, body := skippedBody }) ∧
    out.2.length ≤ 1 ∧
    (out.2 ≠ [] → ∃ efields s,
      event = Json.obj efields ∧
      pyGet efields "type" = Json.str "message" ∧
      pyGet efields "subtype" = Json.null ∧
      truthy (pyGet efields "user") = true ∧
      pyGetD efields "text" (Json.str "") = Json.str s ∧
      pyStrip s ≠ "" ∧
      (get_channel_name (pyGet efields "channel") (chanApi (pyGet efields "channel"))
          = Json.str "general" ∨
       get_channel_name (pyGet efields "channel") (chanApi (pyGet efields "channel"))
          = Json.str "announcements")) := by
  cases event with
  | obj efields =>
    rw [handleEventCallback] at h
    split at h
    · split at h
      · rename_i htype hsub mtext htext
        split at h
        · cases h
          exact ⟨Or.inr rfl, by simp, by simp⟩
        · rename_i hcond
          push_neg at hcond
          split at h
          · exact absurd h (by simp)
          · rename_i uname huser
            cases h
            obtain ⟨hs1, hs2, hs3⟩ := routeDecision_spec
              (get_channel_name (pyGet efields "channel") (chanApi (pyGet efields "channel")))
              uname mtext aUrl gUrl
            refine ⟨Or.inl hs1, hs2, fun hne => ⟨efields, mtext, rfl, ?_, ?_, ?_, htext, hcond.1, hs3 hne⟩⟩
            all_goals simp_all
      · exact absurd h (by simp)
    · cases h
      exact ⟨Or.inl rfl, by simp, by simp⟩
  | null => exact absurd h (by simp [handleEventCallback])
  | bool b => exact absurd h (by simp [handleEventCallback])
  | num n => exact absurd h (by simp [handleEventCallback])
  | str s => exact absurd h (by simp [handleEventCallback])
  | arr xs => exact absurd h (by simp [handleEventCallback])

theorem handleParsedBody_shape (parsed : Option Json) (chanApi userApi : Json → Option Json)
    (aUrl gUrl : String) (out : Response × List RelayCall)
    (h : handleParsedBody parsed chanApi userApi aUrl gUrl = Except.ok out) :
    (out.1 = { statusCode := 200, body := okBody } ∨
     out.1 = { statusCode := 200, body := skippedBody } ∨
     (∃ fields, parsed = some (Json.obj fields) ∧
       pyGet fields "type" = Json.str "url_verification" ∧
       out.1 = { statusCode := 200, body := pyGetD fields "challenge" (Json.str "") } ∧
       out.2 = [])) ∧
    out.2.length ≤ 1 ∧
    (out.2 ≠ [] → ∃ fields efields s,
      parsed = some (Json.obj fields) ∧
      pyGet fields "type" = Json.str "event_callback" ∧
      pyGetD fields "event" (Json.obj []) = Json.obj efields ∧
      pyGet efields "type" = Json.str "message" ∧
      pyGet efields "subtype" = Json.null ∧
      truthy (pyGet efields "user") = true ∧
      pyGetD efields "text" (Json.str "") = Json.str s ∧
      pyStrip s ≠ "" ∧
      (get_channel_name (pyGet efields "channel") (chanApi (pyGet efields "channel"))
          = Json.str "general" ∨
       get_channel_name (pyGet efields "channel") (chanApi (pyGet efields "channel"))
          = Json.str "announcements")) := by
  match parsed with
  | none => exact absurd h (by simp [handleParsedBody])
  | some (Json.obj fields) =>
    rw [handleParsedBody] at h
    split at h
    · rename_i hty
      cases h
      exact ⟨Or.inr (Or.inr ⟨fields, rfl, hty, rfl, rfl⟩), by simp, by simp⟩
    · rename_i hty
      obtain ⟨h1, h2, h3⟩ := handleEventCallback_shape _ chanApi userApi aUrl gUrl out h
      refine ⟨?_, h2, ?_⟩
      · rcases h1 with h1 | h1
        · exact Or.inl h1
        · exact Or.inr (Or.inl h1)
      · intro hne
        obtain ⟨efields, s, hev, rest⟩ := h3 hne
        exact ⟨fields, efields, s, rfl, hty, hev, rest⟩
    · cases h
      exact ⟨Or.inl rfl, by simp, by simp⟩
  | some Json.null => exact absurd h (by simp [handleParsedBody])
  | some (Json.bool b) => exact absurd h (by simp [handleParsedBody])
  | some (Json.num n) => exact absurd h (by simp [handleParsedBody])
  | some (Json.str s) => exact absurd h (by simp [handleParsedBody])
  | some (Json.arr xs) => exact absurd h (by simp [handleParsedBody])

/-- C2: every invocation of the handler performs at most one relay call, and
a relay happens only for a parsed event_callback whose inner event is a
message without subtype, with a truthy user id, a string text that is
non-empty after stripping, and a resolved channel name equal to "general"
or "announcements". -/
theorem handler_forwards_at_most_once (hmacHex : String → String → String)
    (parse : String → Option Json) (chanApi userApi : Json → Option Json)
    (cfg : Config) (req : HttpRequest) :
    (handler hmacHex parse chanApi userApi cfg req).2.length ≤ 1 ∧
    ((handler hmacHex parse chanApi userApi cfg req).2 ≠ [] → ∃ fields efields s,
      parse req.body = some (Json.obj fields) ∧
      pyGet fields "type" = Json.str "event_callback" ∧
      pyGetD fields "event" (Json.obj []) = Json.obj efields ∧
      pyGet efields "type" = Json.str "message" ∧
      pyGet efields "subtype" = Json.null ∧
      truthy (pyGet efields "user") = true ∧
      pyGetD efields "text" (Json.str "") = Json.str s ∧
      pyStrip s ≠ "" ∧
      (get_channel_name (pyGet efields "channel") (chanApi (pyGet efields "channel"))
          = Json.str "general" ∨
       get_channel_name (pyGet efields "channel") (chanApi (pyGet efields "channel"))
          = Json.str "announcements")) := by
  rw [handler]
  split
  · exact ⟨by simp, by simp⟩
  · split
    · exact ⟨by simp, by simp⟩
    · split
      · split
        · rename_i out hok
          obtain ⟨-, h2, h3⟩ := handleParsedBody_shape (parse req.body) chanApi userApi _ _ out hok
          exact ⟨h2, h3⟩
        · exact ⟨by simp, by simp⟩
      · exact ⟨by simp, by simp⟩

theorem handler_event_route (hmacHex : String → String → String)
    (parse : String → Option Json) (chanApi userApi : Json → Option Json)
    (cfg : Config) (req : HttpRequest)
    (secret token aUrl gUrl : String)
    (hcfg : getConfig cfg = some (secret, token, aUrl, gUrl))
    (hpost : req.method = "POST")
    (hsig : verify_slack_signature hmacHex secret req.body req.timestamp req.signature = true)
    (fields efields : List (String × Json))
    (hparse : parse req.body = some (Json.obj fields))
    (hty : pyGet fields "type" = Json.str "event_callback")
    (hev : pyGetD fields "event" (Json.obj []) = Json.obj efields)
    (hmty : pyGet efields "type" = Json.str "message")
    (hsub : pyGet efields "subtype" = Json.null)
    (s : String) (htext : pyGetD efields "text" (Json.str "") = Json.str s)
    (hne : ¬ pyStrip s = "") (huser : truthy (pyGet efields "user") = true)
    (uname : Json)
    (hname : get_user_display_name (pyGet efields "user") (userApi (pyGet efields "user"))
      = Except.ok uname) :
    handler hmacHex parse chanApi userApi cfg req =
      routeDecision
        (get_channel_name (pyGet efields "channel") (chanApi (pyGet efields "channel")))
        uname s aUrl gUrl := by
  simp only [handler, hpost, hcfg, hsig, hparse, hty, hev, hmty, hsub, htext, huser, hne,
    hname, handleParsedBody, handleEventCallback, ne_eq, not_true_eq_false, Bool.false_eq_true,
    if_false, if_true, ite_false, ite_true, not_false_eq_true, or_self, or_false, false_or,
    Bool.true_eq_false]

/-- C3: for an eligible message event, resolved name "general" yields exactly
one relay call to the general webhook URL, resolved name "announcements"
exactly one call to the announcements webhook URL, any other resolved name
none; and the relay payload text field is displayName + ": " + messageText. -/
theorem handler_routing_deterministic (hmacHex : String → String → String)
    (parse : String → Option Json) (chanApi userApi : Json → Option Json)
    (cfg : Config) (req : HttpRequest)
    (secret token aUrl gUrl : String)
    (hcfg : getConfig cfg = some (secret, token, aUrl, gUrl))
    (hpost : req.method = "POST")
    (hsig : verify_slack_signature hmacHex secret req.body req.timestamp req.signature = true)
    (fields efields : List (String × Json))
    (hparse : parse req.body = some (Json.obj fields))
    (hty : pyGet fields "type" = Json.str "event_callback")
    (hev : pyGetD fields "event" (Json.obj []) = Json.obj efields)
    (hmty : pyGet efields "type" = Json.str "message")
    (hsub : pyGet efields "subtype" = Json.null)
    (s : String) (htext : pyGetD efields "text" (Json.str "") = Json.str s)
    (hne : ¬ pyStrip s = "") (huser : truthy (pyGet efields "user") = true)
    (uname : Json)
    (hname : get_user_display_name (pyGet efields "user") (userApi (pyGet efields "user"))
      = Except.ok uname) :
    (get_channel_name (pyGet efields "channel") (chanApi (pyGet efields "channel"))
        = Json.str "general" →
      handler hmacHex parse chanApi userApi cfg req =
        ({ statusCode := 200, body := okBody },
          [forward_to_gchat gUrl uname s "general"]) ∧
      (forward_to_gchat gUrl uname s "general").url = gUrl) ∧
    (get_channel_name (pyGet efields "channel") (chanApi (pyGet efields "channel"))
        = Json.str "announcements" →
      handler hmacHex parse chanApi userApi cfg req =
        ({ statusCode := 200, body := okBody },
          [forward_to_gchat aUrl uname s "announcements"]) ∧
      (forward_to_gchat aUrl uname s "announcements").url = aUrl) ∧
    (get_channel_name (pyGet efields "channel") (chanApi (pyGet efields "channel"))
        ≠ Json.str "general" →
      get_channel_name (pyGet efields "channel") (chanApi (pyGet efields "channel"))
        ≠ Json.str "announcements" →
      handler hmacHex parse chanApi userApi cfg req =
        ({ statusCode := 200, body := okBody }, [])) ∧
    (∀ url cn, ∃ pf, (forward_to_gchat url uname s cn).payload = Json.obj pf ∧
      pyGet pf "text" = Json.str (pyStr uname ++ ": " ++ s)) := by
  have hr := handler_event_route hmacHex parse chanApi userApi cfg req secret token aUrl gUrl
    hcfg hpost hsig fields efields hparse hty hev hmty hsub s htext hne huser uname hname
  refine ⟨?_, ?_, ?_, ?_⟩
  · intro hcn
    rw [hr, hcn]
    exact ⟨rfl, rfl⟩
  · intro hcn
    rw [hr, hcn]
    exact ⟨rfl, rfl⟩
  · intro h1 h2
    rw [hr, routeDecision_other _ _ _ _ _ h1 h2]
  · intro url cn
    exact ⟨_, rfl, rfl⟩

def wHmac : String → String → String := fun _ _ => "h"

def wCfg : Config := ⟨some "sec", some "tok", some "aurl", some "gurl"⟩

def wReq : HttpRequest := ⟨"POST", "body", "1", "v0=h"⟩

def wMsgFields : List (String × Json) :=
  [("type", Json.str "event_callback"),
   ("event", Json.obj [
     ("type", Json.str "message"),
     ("user", Json.str "U123ABCD"),
     ("text", Json.str "hello"),
     ("channel", Json.str "C1")])]

def wChanGeneral : Json → Option Json := fun _ =>
  some (Json.obj [("ok", Json.bool true),
    ("channel", Json.obj [("name", Json.str "general")])])

def wUserAdam : Json → Option Json := fun _ =>
  some (Json.obj [("ok", Json.bool true),
    ("user", Json.obj [("profile", Json.obj [("display_name", Json.str "Adam")])])])

/-- C3 witness: a concrete eligible message in a channel resolving to
"general" is relayed exactly once to the general webhook. -/
theorem handler_routing_deterministic_witness :
    handler wHmac (fun _ => some (Json.obj wMsgFields)) wChanGeneral wUserAdam wCfg wReq =
      ({ statusCode := 200, body := okBody },
        [forward_to_gchat "gurl" (Json.str "Adam") "hello" "general"]) :=
  ((handler_routing_deterministic wHmac (fun _ => some (Json.obj wMsgFields))
    wChanGeneral wUserAdam wCfg wReq "sec" "tok" "aurl" "gurl" rfl rfl rfl
    wMsgFields [("type", Json.str "message"), ("user", Json.str "U123ABCD"),
      ("text", Json.str "hello"), ("channel", Json.str "C1")]
    rfl rfl rfl rfl rfl "hello" rfl (by decide) rfl (Json.str "Adam") rfl).1 rfl).1

/-- C9: get_channel_name returns the sentinel "unknown" on a lookup
exception and on any response whose ok flag is not truthy, and an eligible
message whose channel lookup raises is not forwarded while the request
still returns 200 with the ok body. -/
theorem get_channel_name_fail_soft :
    (∀ channel_id : Json, get_channel_name channel_id none = Json.str "unknown") ∧
    (∀ (channel_id data : Json),
      (∀ dfs, data = Json.obj dfs → truthy (pyGet dfs "ok") = false) →
      get_channel_name channel_id (some data) = Json.str "unknown") ∧
    (∀ (hmacHex : String → String → String) (parse : String → Option Json)
      (chanApi userApi : Json → Option Json) (cfg : Config) (req : HttpRequest)
      (secret token aUrl gUrl : String) (fields efields : List (String × Json))
      (s : String) (uname : Json),
      getConfig cfg = some (secret, token, aUrl, gUrl) →
      req.method = "POST" →
      verify_slack_signature hmacHex secret req.body req.timestamp req.signature = true →
      parse req.body = some (Json.obj fields) →
      pyGet fields "type" = Json.str "event_callback" →
      pyGetD fields "event" (Json.obj []) = Json.obj efields →
      pyGet efields "type" = Json.str "message" →
      pyGet efields "subtype" = Json.null →
      pyGetD efields "text" (Json.str "") = Json.str s →
      ¬ pyStrip s = "" →
      truthy (pyGet efields "user") = true →
      get_user_display_name (pyGet efields "user") (userApi (pyGet efields "user"))
        = Except.ok uname →
      get_channel_name (pyGet efields "channel") (chanApi (pyGet efields "channel"))
        = Json.str "unknown" →
      handler hmacHex parse chanApi userApi cfg req =
        ({ statusCode := 200, body := okBody }, [])) := by
  refine ⟨fun _ => rfl, ?_, ?_⟩
  · intro channel_id data hok
    cases data <;> simp_all [get_channel_name]
  · intro hmacHex parse chanApi userApi cfg req secret token aUrl gUrl fields efields s uname
      hcfg hpost hsig hparse hty hev hmty hsub htext hne huser hname hunk
    rw [handler_event_route hmacHex parse chanApi userApi cfg req secret token aUrl gUrl
      hcfg hpost hsig fields efields hparse hty hev hmty hsub s htext hne huser uname hname,
      hunk]
    rfl

/-- C7: a POST with complete configuration, a valid signature, and a body
parsing to a url_verification object echoes the challenge string as the
200 response body, with no relay call; the result does not depend on the
lookup oracles. -/
theorem handler_challenge_echo (hmacHex : String → String → String)
    (parse : String → Option Json) (chanApi userApi : Json → Option Json)
    (cfg : Config) (req : HttpRequest)
    (secret token aUrl gUrl : String) (C : String) (fields : List (String × Json))
    (hcfg : getConfig cfg = some (secret, token, aUrl, gUrl))
    (hpost : req.method = "POST")
    (hsig : verify_slack_signature hmacHex secret req.body req.timestamp req.signature = true)
    (hparse : parse req.body = some (Json.obj fields))
    (hty : pyGet fields "type" = Json.str "url_verification")
    (hch : pyGetD fields "challenge" (Json.str "") = Json.str C) :
    handler hmacHex parse chanApi userApi cfg req =
      ({ statusCode := 200, body := Json.str C }, []) := by
  simp only [handler, hpost, hcfg, hsig, hparse, hty, hch, handleParsedBody, ne_eq,
    not_true_eq_false, Bool.false_eq_true, if_false, ite_false, if_true, ite_true]

/-- C7 witness: the challenge-echo theorem applied to a concrete
url_verification payload with the challenge "abc123". -/
theorem handler_challenge_echo_witness :
    handler wHmac
      (fun _ => some (Json.obj [("type", Json.str "url_verification"),
        ("challenge", Json.str "abc123")]))
      (fun _ => none) (fun _ => none) wCfg wReq =
      ({ statusCode := 200, body := Json.str "abc123" }, []) :=
  handler_challenge_echo wHmac
    (fun _ => some (Json.obj [("type", Json.str "url_verification"),
      ("challenge", Json.str "abc123")]))
    (fun _ => none) (fun _ => none) wCfg wReq
    "sec" "tok" "aurl" "gurl" "abc123"
    [("type", Json.str "url_verification"), ("challenge", Json.str "abc123")]
    rfl rfl rfl rfl rfl rfl

/-- C8: if any of the four configuration values is absent, every POST
returns 500 with the missing-environment body and performs no relay; the
result does not depend on the body, headers, parser, or lookup oracles. -/
theorem handler_missing_config (hmacHex : String → String → String)
    (parse : String → Option Json) (chanApi userApi : Json → Option Json)
    (cfg : Config) (req : HttpRequest)
    (hpost : req.method = "POST")
    (habs : cfg.slack_signing_secret = none ∨ cfg.slack_bot_token = none ∨
      cfg.gchat_announcements_url = none ∨ cfg.gchat_general_url = none) :
    handler hmacHex parse chanApi userApi cfg req =
      ({ statusCode := 500, body := missingEnvBody }, []) := by
  have hc : getConfig cfg = none := by
    obtain ⟨a, b, c, d⟩ := cfg
    rcases habs with h | h | h | h <;> simp_all [getConfig]
  simp only [handler, hpost, hc, ne_eq, not_true_eq_false, Bool.false_eq_true,
    if_false, ite_false]

/-- C8 witness: the missing-configuration theorem applied with the signing
secret absent. -/
theorem handler_missing_config_witness :
    handler wHmac (fun _ => none) (fun _ => none) (fun _ => none)
      ⟨none, some "tok", some "aurl", some "gurl"⟩ wReq =
      ({ statusCode := 500, body := missingEnvBody }, []) :=
  handler_missing_config wHmac (fun _ => none) (fun _ => none) (fun _ => none)
    ⟨none, some "tok", some "aurl", some "gurl"⟩ wReq rfl (Or.inl rfl)

/-- C4 counterexample: with complete configuration and a valid signature, a
body on which json.loads raises (modelled by the parser returning none)
produces a 500 internal-error response, not the 200 the claim states. -/
theorem handler_malformed_body_500 :
    verify_slack_signature wHmac "sec" "body" "1" "v0=h" = true ∧
    handler wHmac (fun _ => none) (fun _ => none) (fun _ => none) wCfg wReq =
      ({ statusCode := 500, body := internalErrorBody }, []) := ⟨rfl, rfl⟩

/-- C4 amended: with complete configuration and a valid signature, a body
that parses to a JSON object of unrecognized type is absorbed with 200 and
no relay, while a body that does not parse, or parses to a non-object, hits
the exception boundary and returns 500 with no relay. -/
theorem handler_payload_absorption (hmacHex : String → String → String)
    (parse : String → Option Json) (chanApi userApi : Json → Option Json)
    (cfg : Config) (req : HttpRequest)
    (secret token aUrl gUrl : String)
    (hcfg : getConfig cfg = some (secret, token, aUrl, gUrl))
    (hpost : req.method = "POST")
    (hsig : verify_slack_signature hmacHex secret req.body req.timestamp req.signature = true) :
    (parse req.body = none →
      handler hmacHex parse chanApi userApi cfg req =
        ({ statusCode := 500, body := internalErrorBody }, [])) ∧
    (∀ fields, parse req.body = some (Json.obj fields) →
      pyGet fields "type" ≠ Json.str "url_verification" →
      pyGet fields "type" ≠ Json.str "event_callback" →
      handler hmacHex parse chanApi userApi cfg req =
        ({ statusCode := 200, body := okBody }, [])) ∧
    (∀ j, parse req.body = some j → (∀ fields, j ≠ Json.obj fields) →
      handler hmacHex parse chanApi userApi cfg req =
        ({ statusCode := 500, body := internalErrorBody }, [])) := by
  refine ⟨?_, ?_, ?_⟩
  · intro hp
    simp only [handler, hpost, hcfg, hsig, hp, handleParsedBody, ne_eq,
      not_true_eq_false, Bool.false_eq_true, if_false, ite_false, if_true, ite_true]
  · intro fields hp h1 h2
    have hx : handleParsedBody (some (Json.obj fields)) chanApi userApi aUrl gUrl =
        Except.ok ({ statusCode := 200, body := okBody }, []) := by
      rw [handleParsedBody]
      split
      · rename_i heq
        exact absurd heq h1
      · rename_i heq
        exact absurd heq h2
      · rfl
    simp only [handler, hpost, hcfg, hsig, hp, hx, ne_eq,
      not_true_eq_false, Bool.false_eq_true, if_false, ite_false, if_true, ite_true]
  · intro j hp hno
    have hx : handleParsedBody (some j) chanApi userApi aUrl gUrl = Except.error () := by
      cases j <;> simp_all [handleParsedBody]
    simp only [handler, hpost, hcfg, hsig, hp, hx, ne_eq,
      not_true_eq_false, Bool.false_eq_true, if_false, ite_false, if_true, ite_true]

/-- C4 witness: the absorption theorem applied to a concrete object payload
of unrecognized type, absorbed as 200 with no relay. -/
theorem handler_payload_absorption_witness :
    handler wHmac (fun _ => some (Json.obj [("type", Json.str "reaction_added")]))
      (fun _ => none) (fun _ => none) wCfg wReq =
      ({ statusCode := 200, body := okBody }, []) :=
  (handler_payload_absorption wHmac
    (fun _ => some (Json.obj [("type", Json.str "reaction_added")]))
    (fun _ => none) (fun _ => none) wCfg wReq "sec" "tok" "aurl" "gurl"
    rfl rfl rfl).2.1 [("type", Json.str "reaction_added")] rfl
    (by simp [pyGet, jLookup]) (by simp [pyGet, jLookup])

def wWsFields : List (String × Json) :=
  [("type", Json.str "event_callback"),
   ("event", Json.obj [
     ("type", Json.str "message"),
     ("user", Json.str "U123ABCD"),
     ("text", Json.str "   "),
     ("channel", Json.str "C1")])]

/-- C5 counterexample: a whitespace-only message under a valid signature is
answered 200 with body status skipped_empty_or_bot_message, which is a 200
response, is not a challenge echo (the payload type is event_callback), and
differs from the ok body the claim requires. -/
theorem handler_skipped_not_ok_body :
    handler wHmac (fun _ => some (Json.obj wWsFields)) (fun _ => none) (fun _ => none)
      wCfg wReq = ({ statusCode := 200, body := skippedBody }, []) ∧
    skippedBody ≠ okBody ∧
    pyGet wWsFields "type" = Json.str "event_callback" := by
  refine ⟨rfl, ?_, rfl⟩
  simp [skippedBody, okBody]

/-- C5 amended: every response status is 200, 401, 405 or 500; 405 exactly
on non-POST; missing configuration gives the 500 missing-environment
response; a failed signature on a configured POST gives 401; and every 200
body is the ok body, the skipped body, or the challenge echo of a
url_verification payload. -/
theorem handler_status_set (hmacHex : String → String → String)
    (parse : String → Option Json) (chanApi userApi : Json → Option Json)
    (cfg : Config) (req : HttpRequest) :
    ((handler hmacHex parse chanApi userApi cfg req).1.statusCode = 200 ∨
     (handler hmacHex parse chanApi userApi cfg req).1.statusCode = 401 ∨
     (handler hmacHex parse chanApi userApi cfg req).1.statusCode = 405 ∨
     (handler hmacHex parse chanApi userApi cfg req).1.statusCode = 500) ∧
    ((handler hmacHex parse chanApi userApi cfg req).1.statusCode = 405 ↔
      req.method ≠ "POST") ∧
    (req.method = "POST" → getConfig cfg = none →
      handler hmacHex parse chanApi userApi cfg req =
        ({ statusCode := 500, body := missingEnvBody }, [])) ∧
    (∀ secret token aUrl gUrl, req.method = "POST" →
      getConfig cfg = some (secret, token, aUrl, gUrl) →
      verify_slack_signature hmacHex secret req.body req.timestamp req.signature = false →
      handler hmacHex parse chanApi userApi cfg req =
        ({ statusCode := 401, body := invalidSignatureBody }, [])) ∧
    ((handler hmacHex parse chanApi userApi cfg req).1.statusCode = 200 →
      (handler hmacHex parse chanApi userApi cfg req).1.body = okBody ∨
      (handler hmacHex parse chanApi userApi cfg req).1.body = skippedBody ∨
      ∃ fields, parse req.body = some (Json.obj fields) ∧
        pyGet fields "type" = Json.str "url_verification" ∧
        (handler hmacHex parse chanApi userApi cfg req).1.body =
          pyGetD fields "challenge" (Json.str "")) := by
  by_cases hpost : req.method = "POST"
  · rcases hcfg2 : getConfig cfg with - | ⟨secret, token, aUrl, gUrl⟩
    · have hh : handler hmacHex parse chanApi userApi cfg req =
          ({ statusCode := 500, body := missingEnvBody }, []) := by
        simp only [handler, hpost, hcfg2, ne_eq, not_true_eq_false, Bool.false_eq_true,
          if_false, ite_false]
      rw [hh]
      refine ⟨by simp, by simp [hpost], fun _ _ => rfl, ?_, by simp⟩
      intro s t a g _ hsome
      cases hsome
    · by_cases hv : verify_slack_signature hmacHex secret req.body req.timestamp req.signature = true
      · rcases hout : handleParsedBody (parse req.body) chanApi userApi aUrl gUrl with e | out
        · have hh : handler hmacHex parse chanApi userApi cfg req =
              ({ statusCode := 500, body := internalErrorBody }, []) := by
            simp only [handler, hpost, hcfg2, hv, hout, ne_eq, not_true_eq_false,
              Bool.false_eq_true, if_false, ite_false, if_true, ite_true]
          rw [hh]
          refine ⟨by simp, by simp [hpost], ?_, ?_, by simp⟩
          · intro _ hnone
            cases hnone
          · intro s t a g _ hsome hver
            have h1 : secret = s := congrArg (fun p => p.1) (Option.some.inj hsome)
            rw [h1, hver] at hv
            cases hv
        · have hh : handler hmacHex parse chanApi userApi cfg req = out := by
            simp only [handler, hpost, hcfg2, hv, hout, ne_eq, not_true_eq_false,
              Bool.false_eq_true, if_false, ite_false, if_true, ite_true]
          obtain ⟨h1, -, -⟩ := handleParsedBody_shape (parse req.body) chanApi userApi
            aUrl gUrl out hout
          rw [hh]
          refine ⟨?_, ?_, ?_, ?_, ?_⟩
          · rcases h1 with h1 | h1 | ⟨fields, -, -, h1, -⟩ <;> rw [h1] <;> simp
          · rcases h1 with h1 | h1 | ⟨fields, -, -, h1, -⟩ <;> rw [h1] <;> simp [hpost]
          · intro _ hnone
            cases hnone
          · intro s t a g _ hsome hver
            have h1 : secret = s := congrArg (fun p => p.1) (Option.some.inj hsome)
            rw [h1, hver] at hv
            cases hv
          · intro h200
            rcases h1 with h1 | h1 | ⟨fields, hp, hty, h1, -⟩
            · exact Or.inl (by rw [h1])
            · exact Or.inr (Or.inl (by rw [h1]))
            · exact Or.inr (Or.inr ⟨fields, hp, hty, by rw [h1]⟩)
      · have hvf : verify_slack_signature hmacHex secret req.body req.timestamp req.signature
            = false := by simpa using hv
        have hh : handler hmacHex parse chanApi userApi cfg req =
            ({ statusCode := 401, body := invalidSignatureBody }, []) := by
          simp only [handler, hpost, hcfg2, hvf, ne_eq, not_true_eq_false,
            Bool.false_eq_true, if_false, ite_false]
        rw [hh]
        refine ⟨by simp, by simp [hpost], ?_, fun _ _ _ _ _ _ _ => rfl, by simp⟩
        intro _ hnone
        cases hnone
  · have hh : handler hmacHex parse chanApi userApi cfg req =
        ({ statusCode := 405, body := methodNotAllowedBody }, []) := by
      simp only [handler, hpost, ne_eq, not_false_eq_true, if_true, ite_true]
    rw [hh]
    refine ⟨by simp, by simp [hpost], ?_, ?_, by simp⟩
    · intro hp
      exact absurd hp hpost
    · intro _ _ _ _ hp _ _
      exact absurd hp hpost

theorem userName_none_eq (u : String) :
    get_user_display_name (Json.str u) none =
      Except.ok (Json.str ("User-" ++ u.takeRight 4)) := rfl

theorem userName_notok_eq (u : String) (data : Json)
    (hok : ∀ dfs, data = Json.obj dfs → truthy (pyGet dfs "ok") = false) :
    get_user_display_name (Json.str u) (some data) =
      Except.ok (Json.str ("User-" ++ u.takeRight 4)) := by
  cases data with
  | obj dfs =>
    have h := hok dfs rfl
    simp [get_user_display_name, userTryBody, h, pyLast4, pyStr, Except.map]
  | null => rfl
  | bool b => rfl
  | num n => rfl
  | str s => rfl
  | arr xs => rfl

theorem userName_ok_eq (u : String) (dfs ufs pfs : List (String × Json))
    (hok : truthy (pyGet dfs "ok") = true)
    (huser : pyGetD dfs "user" (Json.obj []) = Json.obj ufs)
    (hprof : pyGetD ufs "profile" (Json.obj []) = Json.obj pfs) :
    get_user_display_name (Json.str u) (some (Json.obj dfs)) = Except.ok (
      if truthy (pyGet pfs "display_name") = true then pyGet pfs "display_name"
      else if truthy (pyGet ufs "real_name") = true then pyGet ufs "real_name"
      else if truthy (pyGet ufs "name") = true then pyGet ufs "name"
      else Json.str ("User-" ++ u.takeRight 4)) := by
  simp only [get_user_display_name, userTryBody, hok, huser, hprof, if_true, ite_true]
  split_ifs <;> simp_all [pyLast4, pyStr, Except.map]

theorem userTryBody_ok_cases (uid data v : Json) (h : userTryBody uid data = Except.ok v) :
    truthy v = true ∨ ∃ t, v = Json.str ("User-" ++ t) := by
  cases data with
  | obj dfs =>
    rw [userTryBody] at h
    split at h
    · split at h
      · split at h
        · split_ifs at h with h1 h2 h3
          · exact Or.inl (by simp_all)
          · exact Or.inl (by simp_all)
          · exact Or.inl (by simp_all)
          · cases uid <;> simp [pyLast4, pyStr, Except.map] at h <;>
              exact Or.inr ⟨_, h.symm⟩
        · exact absurd h (by simp)
      · exact absurd h (by simp)
    · cases uid <;> simp [pyLast4, pyStr, Except.map] at h <;>
        exact Or.inr ⟨_, h.symm⟩
  | null => exact absurd h (by simp [userTryBody])
  | bool b => exact absurd h (by simp [userTryBody])
  | num n => exact absurd h (by simp [userTryBody])
  | str s => exact absurd h (by simp [userTryBody])
  | arr xs => exact absurd h (by simp [userTryBody])

theorem userName_ok_cases (uid : Json) (resp : Option Json) (v : Json)
    (h : get_user_display_name uid resp = Except.ok v) :
    truthy v = true ∨ ∃ t, v = Json.str ("User-" ++ t) := by
  rcases resp with - | data
  · simp only [get_user_display_name] at h
    cases uid <;> simp [pyLast4, pyStr, Except.map] at h <;>
      exact Or.inr ⟨_, h.symm⟩
  · simp only [get_user_display_name] at h
    rcases hb : userTryBody uid data with e | w <;> rw [hb] at h
    · cases uid <;> simp [pyLast4, pyStr, Except.map] at h <;>
        exact Or.inr ⟨_, h.symm⟩
    · cases h
      exact userTryBody_ok_cases uid data v hb

theorem userPrefix_ne (t : String) : "User-" ++ t ≠ "" := by
  intro h
  have hd := congrArg String.data h
  rw [String.data_append] at hd
  rw [List.append_eq_nil] at hd
  exact absurd hd.1 (by decide)

theorem truthy_ne_empty_str (v : Json) (h : truthy v = true) : v ≠ Json.str "" := by
  cases v <;> simp_all [truthy]

/-- C6: get_user_display_name resolves via the strict fallback order
profile display name, real name, account name, then "User-" plus the last
four characters of the id; and both a lookup exception and a non-ok API
response yield the synthesized fallback instead of raising. -/
theorem get_user_display_name_fallback_order (u : String) :
    (get_user_display_name (Json.str u) none =
      Except.ok (Json.str ("User-" ++ u.takeRight 4))) ∧
    (∀ data : Json, (∀ dfs, data = Json.obj dfs → truthy (pyGet dfs "ok") = false) →
      get_user_display_name (Json.str u) (some data) =
        Except.ok (Json.str ("User-" ++ u.takeRight 4))) ∧
    (∀ dfs ufs pfs, truthy (pyGet dfs "ok") = true →
      pyGetD dfs "user" (Json.obj []) = Json.obj ufs →
      pyGetD ufs "profile" (Json.obj []) = Json.obj pfs →
      get_user_display_name (Json.str u) (some (Json.obj dfs)) = Except.ok (
        if truthy (pyGet pfs "display_name") = true then pyGet pfs "display_name"
        else if truthy (pyGet ufs "real_name") = true then pyGet ufs "real_name"
        else if truthy (pyGet ufs "name") = true then pyGet ufs "name"
        else Json.str ("User-" ++ u.takeRight 4))) :=
  ⟨userName_none_eq u, fun data hok => userName_notok_eq u data hok,
   fun dfs ufs pfs hok huser hprof => userName_ok_eq u dfs ufs pfs hok huser hprof⟩

/-- C10: a present but empty profile display name is falsy, so the resolver
falls through to real name, account name, then the synthesized fallback;
and no successful resolution ever returns the empty string. -/
theorem get_user_display_name_empty_display (u : String) :
    (∀ dfs ufs pfs, truthy (pyGet dfs "ok") = true →
      pyGetD dfs "user" (Json.obj []) = Json.obj ufs →
      pyGetD ufs "profile" (Json.obj []) = Json.obj pfs →
      pyGet pfs "display_name" = Json.str "" →
      get_user_display_name (Json.str u) (some (Json.obj dfs)) = Except.ok (
        if truthy (pyGet ufs "real_name") = true then pyGet ufs "real_name"
        else if truthy (pyGet ufs "name") = true then pyGet ufs "name"
        else Json.str ("User-" ++ u.takeRight 4))) ∧
    (∀ (resp : Option Json) (v : Json),
      get_user_display_name (Json.str u) resp = Except.ok v → v ≠ Json.str "") := by
  constructor
  · intro dfs ufs pfs hok huser hprof hempty
    rw [userName_ok_eq u dfs ufs pfs hok huser hprof, hempty]
    simp [truthy]
  · intro resp v h
    rcases userName_ok_cases (Json.str u) resp v h with ht | ⟨t, rfl⟩
    · exact truthy_ne_empty_str v ht
    · intro hc
      injection hc with h2
      exact userPrefix_ne t h2
